import Mathlib

/-!
Verification development for the bank-statement processing repository.

The Python sources are shallowly embedded below.  Strings are modelled by
Lean `String` (operations are implemented over `String.data`, the list of
characters, by structural recursion so that everything evaluates inside the
kernel); Python regular-expression tests (`re.match` / `re.search`) are
modelled by a small backtracking matcher whose alternatives are produced in
the same preference order (greedy, leftmost) that the Python `re` engine
uses; `float` parsing is modelled exactly (sign, decimal mantissa and
power-of-ten exponent — for every token this code passes to `float`, success
and the sign of the result agree with CPython, which is all the code reads).
Character classes (`\d`, `\s`, `[A-Za-z]`, `str.lower`, ...) are modelled on
their ASCII meaning, which is what all the institutional markers and
statement tokens in this repository use.
-/

/-- Python whitespace characters (`\s`, `str.strip`, `str.split`), ASCII part. -/
def pyIsSpace (c : Char) : Bool :=
  c == ' ' || c == '\t' || c == '\n' || c == '\x0b' || c == '\x0c' || c == '\r'

/-- `str.strip()` on the character list: drop whitespace from both ends. -/
def stripChars (cs : List Char) : List Char :=
  ((cs.dropWhile pyIsSpace).reverse.dropWhile pyIsSpace).reverse

/-- `str.strip()`. -/
def pyStrip (s : String) : String := ⟨stripChars s.data⟩

/-- `str.split()` (no separator): split on whitespace runs, discarding empties.
`cur` holds the current token reversed. -/
def splitWsGo : List Char → List Char → List (List Char)
  | [], cur => if cur.isEmpty then [] else [cur.reverse]
  | c :: cs, cur =>
    if pyIsSpace c then
      (if cur.isEmpty then splitWsGo cs [] else cur.reverse :: splitWsGo cs [])
    else splitWsGo cs (c :: cur)

/-- `str.split()`. -/
def pySplitWs (s : String) : List String := (splitWsGo s.data []).map (⟨·⟩)

/-- `text.split('\n')`: split on newlines, keeping empty pieces. -/
def splitLinesGo : List Char → List (List Char)
  | [] => [[]]
  | c :: cs =>
    if c == '\n' then [] :: splitLinesGo cs
    else
      match splitLinesGo cs with
      | t :: ts => (c :: t) :: ts
      | [] => [[c]]

/-- `text.split('\n')`. -/
def pyLines (s : String) : List String := (splitLinesGo s.data).map (⟨·⟩)

/-- `re.split(r'\s{2,}', s)`: split at each maximal whitespace run of length
at least 2 (the greedy `\s{2,}` consumes the whole run); single whitespace
characters stay inside the surrounding token.  Fueled recursion (the fuel is
at least the remaining length, so it never runs out). -/
def splitWs2Go (fuel : Nat) (cs : List Char) (cur : List Char) : List (List Char) :=
  match fuel, cs with
  | 0, rest => [cur.reverse ++ rest]
  | _ + 1, [] => [cur.reverse]
  | f + 1, c :: cs =>
    if pyIsSpace c then
      match cs with
      | d :: _ =>
        if pyIsSpace d then cur.reverse :: splitWs2Go f (cs.dropWhile pyIsSpace) []
        else splitWs2Go f cs (c :: cur)
      | [] => splitWs2Go f cs (c :: cur)
    else splitWs2Go f cs (c :: cur)

/-- `re.split(r'\s{2,}', s)`. -/
def pySplitWs2 (s : String) : List String :=
  (splitWs2Go (s.data.length + 1) s.data []).map (⟨·⟩)

/-- `' '.join(parts)` on character lists. -/
def joinWith (sep : List Char) : List (List Char) → List Char
  | [] => []
  | [x] => x
  | x :: y :: ys => x ++ sep ++ joinWith sep (y :: ys)

/-- `' '.join(parts)`. -/
def pyJoinSpace (parts : List String) : String := ⟨joinWith [' '] (parts.map String.data)⟩

/-- ASCII `str.lower()`. -/
def pyToLower (s : String) : String := ⟨s.data.map Char.toLower⟩

/-- ASCII `str.upper()`. -/
def pyToUpper (s : String) : String := ⟨s.data.map Char.toUpper⟩

/-- Substring test `needle in hay` (Python `in` on strings). -/
def containsChars (hay needle : List Char) : Bool :=
  hay.tails.any (fun t => needle.isPrefixOf t)

/-- Substring test `needle in hay`. -/
def containsStr (hay needle : String) : Bool := containsChars hay.data needle.data

/-- `s.replace(pat, '')`: remove every (leftmost, non-overlapping) occurrence
of `pat`.  Fueled; the fuel is at least the remaining length. -/
def removeAllGo (pat : List Char) (fuel : Nat) (cs : List Char) : List Char :=
  match fuel, cs with
  | 0, rest => rest
  | _ + 1, [] => []
  | f + 1, c :: cs =>
    if pat.isPrefixOf (c :: cs) && !pat.isEmpty then
      removeAllGo pat f ((c :: cs).drop pat.length)
    else c :: removeAllGo pat f cs

/-- `s.replace(pat, '')` (Python returns `s` unchanged for the empty pattern
with an empty replacement). -/
def pyRemoveAll (s pat : String) : String :=
  if pat.data.isEmpty then s else ⟨removeAllGo pat.data (s.data.length + 1) s.data⟩

/-- `re.sub(r'\s+', ' ', ·)`: collapse each whitespace run to one space.
Fueled; the fuel is at least the remaining length. -/
def subWsGo (fuel : Nat) (cs : List Char) : List Char :=
  match fuel, cs with
  | 0, rest => rest
  | _ + 1, [] => []
  | f + 1, c :: cs =>
    if pyIsSpace c then ' ' :: subWsGo f (cs.dropWhile pyIsSpace)
    else c :: subWsGo f cs

/-!
## Regular-expression matcher

A `Matcher` maps an input character list to the list of possible remainders
after a match at the start of the input, ordered by the Python `re` engine's
backtracking preference (greedy quantifiers try longer matches first).  A
pattern matches (`re.match` is truthy) iff the list is nonempty, and the
head of the list is the remainder of the preferred match, from which the
matched text (`group(...)`) is recovered.
-/

/-- A backtracking matcher: all possible remainders, in preference order. -/
abbrev Matcher := List Char → List (List Char)

/-- Match one character satisfying `p`. -/
def mChar (p : Char → Bool) : Matcher
  | [] => []
  | c :: rest => if p c then [rest] else []

/-- Match the empty string. -/
def mEps : Matcher := fun cs => [cs]

/-- Match nothing. -/
def mFail : Matcher := fun _ => []

/-- Sequencing. -/
def mSeq (a b : Matcher) : Matcher := fun cs => (a cs).flatMap b

/-- Preference-ordered alternation. -/
def mAlt (a b : Matcher) : Matcher := fun cs => a cs ++ b cs

/-- `a?` (greedy: try `a` first). -/
def mOpt (a : Matcher) : Matcher := mAlt a mEps

/-- `a{n}`. -/
def mRepExact (a : Matcher) : Nat → Matcher
  | 0 => mEps
  | n + 1 => mSeq a (mRepExact a n)

/-- `a{lo,hi}` (greedy: more repetitions preferred). -/
def mFromTo (a : Matcher) (lo : Nat) : Nat → Matcher
  | 0 => if lo == 0 then mEps else mFail
  | h + 1 => if lo ≥ h + 2 then mFail else mAlt (mRepExact a (h + 1)) (mFromTo a lo h)

/-- `a*` (greedy), fueled; each repetition of the patterns used here consumes
at least one character, so fuel equal to the input length is complete. -/
def mStar (a : Matcher) : Nat → Matcher
  | 0 => mEps
  | f + 1 => fun cs => (mSeq a (mStar a f)) cs ++ [cs]

/-- `\d`. -/
def mDigit : Matcher := mChar Char.isDigit

/-- `[A-Za-z]`. -/
def mAlphaChar : Matcher := mChar Char.isAlpha

/-- `[A-Z]`. -/
def mUpperChar : Matcher := mChar Char.isUpper

/-- `\s`. -/
def mWs : Matcher := mChar pyIsSpace

/-- `\s+`. -/
def mWsPlus (fuel : Nat) : Matcher := mSeq mWs (mStar mWs fuel)

/-- `\d{1,2}-[A-Za-z]{3}-\d{2}` — the DBS date shape. -/
def dateRE : Matcher :=
  mSeq (mFromTo mDigit 1 2)
    (mSeq (mChar (· == '-'))
      (mSeq (mRepExact mAlphaChar 3)
        (mSeq (mChar (· == '-')) (mRepExact mDigit 2))))

/-- `\d{1,3}(?:,\d{3})*(?:\.\d{2})?` — the amount shape. -/
def amountRE (fuel : Nat) : Matcher :=
  mSeq (mFromTo mDigit 1 3)
    (mSeq (mStar (mSeq (mChar (· == ',')) (mRepExact mDigit 3)) fuel)
      (mOpt (mSeq (mChar (· == '.')) (mRepExact mDigit 2))))

/-- `re.match(pat, s)` truthiness: a match at the start of `s`. -/
def reTest (m : Matcher) (s : String) : Bool := !(m s.data).isEmpty

/-- `re.match(pat + '$', s)` truthiness: a match of the whole of `s`
(no line passed here contains a newline, so `$` means end of string). -/
def reTestFull (m : Matcher) (s : String) : Bool := (m s.data).contains []

/-- `re.search(pat, s)` truthiness: a match starting anywhere. -/
def reSearchGo (m : Matcher) : List Char → Bool
  | [] => !(m []).isEmpty
  | c :: cs => !(m (c :: cs)).isEmpty || reSearchGo m cs

/-- `re.search(pat, s)` truthiness. -/
def reSearch (m : Matcher) (s : String) : Bool := reSearchGo m s.data

/-- The preferred match of `m` at the start of `cs`, as the matched text. -/
def reFirstHere (m : Matcher) (cs : List Char) : Option (List Char) :=
  match m cs with
  | [] => none
  | rest :: _ => some (cs.take (cs.length - rest.length))

/-- `re.search(pat, s).group(...)`: the text of the leftmost (then greedy)
match, or `none` if there is no match. -/
def reSearchExtractGo (m : Matcher) : List Char → Option (List Char)
  | [] => reFirstHere m []
  | c :: cs =>
    match reFirstHere m (c :: cs) with
    | some t => some t
    | none => reSearchExtractGo m cs

/-- `re.search(pat, s).group(...)` as a `String`. -/
def reSearchExtract (m : Matcher) (s : String) : Option String :=
  (reSearchExtractGo m s.data).map (⟨·⟩)

/-!
## `float` parsing

`float(s)` on the comma-stripped amount tokens of this code base.  Modelled
exactly over `ℚ`: optional sign, decimal digits with an optional fractional
part (at least one digit overall), and an optional exponent.  CPython extras
that cannot occur in the digit-leading tokens reaching `float` here
(`inf`/`nan`, surrounding whitespace) and digit-group underscores are not
modelled; for every token this repository passes to `float`, success and the
sign of the result agree with CPython.
-/

/-- Numeric value of a digit run. -/
def digitsVal (cs : List Char) : Nat :=
  cs.foldl (fun a c => 10 * a + (c.toNat - '0'.toNat)) 0

/-- Split a leading digit run. -/
def takeDigits (cs : List Char) : List Char × List Char :=
  (cs.takeWhile Char.isDigit, cs.dropWhile Char.isDigit)

/-- Parse the exponent tail `[eE][+-]?digits` (or nothing). -/
def pyFloatExp : List Char → Option ℤ
  | [] => some 0
  | c :: cs =>
    if c == 'e' || c == 'E' then
      let (sgn, cs2) :=
        match cs with
        | '+' :: t => ((1 : ℤ), t)
        | '-' :: t => ((-1 : ℤ), t)
        | t => ((1 : ℤ), t)
      let (ds, rest) := takeDigits cs2
      if ds.isEmpty || !rest.isEmpty then none
      else some (sgn * (digitsVal ds : ℤ))
    else none

/-- The exact value parsed by `float(s)`, kept unnormalized as
sign / decimal-mantissa / power-of-ten exponent: the value denoted is
`(-1)^neg * mant * 10^fexp`. -/
structure PyFloatVal where
  neg : Bool
  mant : Nat
  fexp : Int
deriving DecidableEq, Repr

/-- `float(s)`, `none` where CPython raises `ValueError`. -/
def pyFloat (s : String) : Option PyFloatVal :=
  let (neg, cs) :=
    match s.data with
    | '+' :: t => (false, t)
    | '-' :: t => (true, t)
    | t => (false, t)
  let (ip, rest) := takeDigits cs
  let (fp, rest2) :=
    match rest with
    | '.' :: t => takeDigits t
    | t => ([], t)
  if ip.isEmpty && fp.isEmpty then none
  else
    match pyFloatExp rest2 with
    | none => none
    | some e => some ⟨neg, digitsVal (ip ++ fp), e - (fp.length : Int)⟩

/-- The comparison `float(s) > 0`: the parsed value is positive iff its sign
is non-negative and its mantissa digits are not all zero. -/
def pyFloatPos (x : PyFloatVal) : Bool := !x.neg && decide (x.mant ≠ 0)

/-!
## Keyword scans and merchant taxonomy
-/

/-- The `for keyword in kws: if keyword in description: ...` loop used by the
per-format `_assign_*_transaction_type` helpers (keywords used verbatim). -/
def kwAny : List String → String → Bool
  | [], _ => false
  | k :: rest, d => if containsStr d k then true else kwAny rest d

/-- The `for keyword in kws: if keyword.lower() in description_lower: ...`
loop used by `determine_transaction_type`, `categorize_merchant` and the
`detect_format` predicates. -/
def kwAnyLower : List String → String → Bool
  | [], _ => false
  | k :: rest, dl => if containsStr dl (pyToLower k) then true else kwAnyLower rest dl

/-- A merchant taxonomy: ordered category / keyword-list pairs (the insertion
order of the Python `merchant_config` dict). -/
abbrev Taxonomy := List (String × List String)

/-- The built-in default taxonomy (`load_merchant_config` fallback). -/
def defaultTaxonomy : Taxonomy :=
  [("Adyen", ["adyen", "adyen payment"]),
   ("MYR", ["myr", "myr payment"]),
   ("Lalamove", ["lalamove", "lala move"]),
   ("Amazon", ["amazon", "amzn"]),
   ("Deliveroo", ["deliveroo", "deliveroo payment"]),
   ("Gpay", ["gpay", "google pay", "gpay network"]),
   ("Hero", ["hero", "delivery hero", "foodpanda"])]

/-- The category loop shared by both `categorize_merchant` variants:
first category, in stored order, with a keyword appearing (lowercased) in
the lowercased description; `"Other"` otherwise. -/
def categorizeLoop (dl : String) : Taxonomy → String
  | [] => "Other"
  | (cat, kws) :: rest => if kwAnyLower kws dl then cat else categorizeLoop dl rest

/-- `BaseBankProcessor.categorize_merchant` (base_processor.py, lines 65-75). -/
def categorize_merchant_base (tax : Taxonomy) (description : String) : String :=
  categorizeLoop (pyToLower description) tax

/-- `OCBCBankProcessor.categorize_merchant` (ocbc_processor_v2.py, lines
441-455): as the base version, but an empty description short-circuits to
`"Other"` before the keyword scan. -/
def categorize_merchant_v2 (tax : Taxonomy) (description : String) : String :=
  if description = "" then "Other"
  else categorize_merchant_base tax description

/-- `BaseBankProcessor.determine_transaction_type`'s withdrawal keywords. -/
def baseWithdrawalKeywords : List String :=
  ["debit purchase", "giro payment", "fast transfer", "charges",
   "ccy conversion fee", "fast payment", "fund transfer", "fast payment"]

/-- `BaseBankProcessor.determine_transaction_type`'s deposit keywords. -/
def baseDepositKeywords : List String :=
  ["payment/transfer", "ibg giro", "transfer", "fund transfer",
   "cash rebate", "transfer", "remittance transfer of funds"]

/-- The `elif deposit and float(deposit.replace(',', '')) > 0` fallback tail
of `determine_transaction_type` (a `ValueError` from `float` is an
exception, modelled as `Except.error`). -/
def determineFallbackDeposit (deposit : String) : Except Unit String :=
  if deposit ≠ "" then
    match pyFloat (pyRemoveAll deposit ",") with
    | none => .error ()
    | some v => if pyFloatPos v then .ok "Deposit" else .ok "Mixed"
  else .ok "Mixed"

/-- `BaseBankProcessor.determine_transaction_type` (base_processor.py, lines
77-103): deposit keywords first, then withdrawal keywords, then the
amount-field fallback, with `"Mixed"` as the final default. -/
def determine_transaction_type (description withdrawal deposit : String) :
    Except Unit String :=
  let dl := pyToLower description
  if kwAnyLower baseDepositKeywords dl then .ok "Deposit"
  else if kwAnyLower baseWithdrawalKeywords dl then .ok "Withdrawal"
  else if withdrawal ≠ "" then
    match pyFloat (pyRemoveAll withdrawal ",") with
    | none => .error ()
    | some v => if pyFloatPos v then .ok "Withdrawal" else determineFallbackDeposit deposit
  else determineFallbackDeposit deposit

/-- Append the result of one loop iteration guarded by `try`/`except`:
a successful record is appended, an exception falls through to `continue`. -/
def appendOk {E B : Type} (acc : List B) (x : Except E B) : List B :=
  match x with
  | .ok r => acc ++ [r]
  | .error _ => acc

/-- Append the result of one loop iteration guarded by an `if transaction:`
check: a parsed record is appended, `None` falls through. -/
def appendSome {B : Type} (acc : List B) (x : Option B) : List B :=
  match x with
  | some r => acc ++ [r]
  | none => acc

/-!
## DBS processor (`dbs_processor.py`)
-/

/-- A DBS transaction record (the dict built by `DBSBankProcessor`); fields
that a given code path has not assigned hold `""`. -/
structure DBSTransaction where
  transaction_date : String := ""
  value_date : String := ""
  transaction_details : String := ""
  withdrawal : String := ""
  deposit : String := ""
  balance : String := ""
  transaction_type : String := ""
  merchant_category : String := ""
deriving DecidableEq, Repr, Inhabited

/-- `DBSBankProcessor.clean_text`: collapse whitespace after stripping, then
normalize the balance-brought-forward marker. -/
def dbs_clean_text (s : String) : String :=
  if s = "" then ""
  else
    let t : String := ⟨subWsGo (s.data.length + 1) (stripChars s.data)⟩
    if pyToLower t = "balance b/f" then "Balance Brought Forward" else t

/-- Anchor Format 1: `re.match(r'^\d{1,2}-[A-Za-z]{3}-\d{2}\s+\d{1,3}(?:,\d{3})*(?:\.\d{2})?', line)`. -/
def dbs_anchor1 (s : String) : Bool :=
  reTest (mSeq dateRE (mSeq (mWsPlus s.data.length) (amountRE s.data.length))) s

/-- Anchor Format 2: `re.match(r'^\d{1,3}(?:,\d{3})*(?:\.\d{2})?\s+\d{1,2}-[A-Za-z]{3}-\d{2}', line)`. -/
def dbs_anchor2 (s : String) : Bool :=
  reTest (mSeq (amountRE s.data.length) (mSeq (mWsPlus s.data.length) dateRE)) s

/-- Anchor Format 3: `re.search(r'\d{1,3}(?:,\d{3})*(?:\.\d{2})?\d{1,2}-[A-Za-z]{3}-\d{2}', line)`. -/
def dbs_anchor3 (s : String) : Bool :=
  reSearch (mSeq (amountRE s.data.length) dateRE) s

/-- A (stripped) line is collected as a potential DBS transaction line iff
one of the three anchor patterns fires (the three `if`/`continue` tests of
`extract_transactions`, dbs_processor.py lines 67-80). -/
def dbs_is_anchor (s : String) : Bool := dbs_anchor1 s || dbs_anchor2 s || dbs_anchor3 s

/-- The lookahead test `re.match(r'^\d{1,2}-[A-Za-z]{3}-\d{2}', next_line)`. -/
def dbs_date_start (s : String) : Bool := reTest dateRE s

/-- The lookahead test `re.match(r'^\d{1,3}(?:,\d{3})*(?:\.\d{2})?', next_line)`. -/
def amount_start (s : String) : Bool := reTest (amountRE s.data.length) s

/-- `DBSBankProcessor._assign_dbs_transaction_type`'s deposit keywords. -/
def dbsDepositKeywords : List String :=
  ["REMITTANCE TRANSFER OF FUNDS RTF", "IBG GIRO", "TRANSFER", "CASH TRANSACTION"]

/-- `DBSBankProcessor._assign_dbs_transaction_type`'s withdrawal keywords. -/
def dbsWithdrawalKeywords : List String :=
  ["FAST PAYMENT", "GIRO PAYMENT", "SERVICE CHARGE", "INTERBANK GIRO IBG"]

/-- `DBSBankProcessor._assign_dbs_transaction_type` (dbs_processor.py, lines
254-295): clear both amount fields, then place the captured amount according
to the first keyword list that matches the uppercased description (deposit
keywords first), defaulting to a withdrawal. -/
def assign_dbs_transaction_type (t : DBSTransaction) : DBSTransaction :=
  let description := pyToUpper t.transaction_details
  let amount := t.withdrawal
  if kwAny dbsDepositKeywords description then
    { t with withdrawal := "", deposit := amount, transaction_type := "Deposit" }
  else if kwAny dbsWithdrawalKeywords description then
    { t with withdrawal := amount, deposit := "", transaction_type := "Withdrawal" }
  else
    { t with withdrawal := amount, deposit := "", transaction_type := "Withdrawal" }

/-- The three mutually exclusive format branches of
`DBSBankProcessor._parse_dbs_transaction_line` (dbs_processor.py, lines
210-238), building the raw field dict before clean-up and type assignment. -/
def dbs_parse_fields (line : String) : DBSTransaction :=
  if dbs_anchor1 line then
    let parts := pySplitWs (pyStrip line)
    if parts.length ≥ 3 then
      { transaction_date := dbs_clean_text (parts.getD 0 ""), withdrawal := parts.getD 1 "",
        transaction_details := pyJoinSpace (parts.drop 2),
        value_date := dbs_clean_text (parts.getD 0 "") }
    else {}
  else if dbs_anchor2 line then
    let parts := pySplitWs (pyStrip line)
    if parts.length ≥ 3 then
      { withdrawal := parts.getD 0 "", transaction_date := dbs_clean_text (parts.getD 1 ""),
        transaction_details := pyJoinSpace (parts.drop 2),
        value_date := dbs_clean_text (parts.getD 1 "") }
    else {}
  else if dbs_anchor3 line then
    match reSearchExtract (amountRE line.data.length) line, reSearchExtract dateRE line with
    | some amt, some dt =>
      { withdrawal := amt, transaction_date := dbs_clean_text dt,
        transaction_details := pyStrip (pyRemoveAll (pyRemoveAll line amt) dt),
        value_date := dbs_clean_text dt }
    | _, _ => {}
  else {}

/-- `DBSBankProcessor._parse_dbs_transaction_line` (dbs_processor.py, lines
198-252): the format branches, then description clean-up and
`_assign_dbs_transaction_type`.  (Nothing in the Python body can raise, so
its `try`/`except None` wrapper never fires.) -/
def parse_dbs_transaction_line (line : String) : DBSTransaction :=
  let t := dbs_parse_fields line
  assign_dbs_transaction_type { t with transaction_details := dbs_clean_text t.transaction_details }

/-- One step of the description-continuation lookahead (both processors):
skip blank lines, absorb a stripped line satisfying `cond`, stop at the
first non-blank line that does not. -/
def stitchLoop (cond : String → Bool) : List String → List String
  | [] => []
  | l :: rest =>
    let s := pyStrip l
    if s = "" then stitchLoop cond rest
    else if cond s then s :: stitchLoop cond rest
    else []

/-- The DBS continuation condition (dbs_processor.py, lines 100-102): not
date-initial, not amount-initial, and longer than 3 characters. -/
def dbs_cont_cond (s : String) : Bool :=
  !dbs_date_start s && !amount_start s && decide (s.data.length > 3)

/-- The anchor scan of `DBSBankProcessor.extract_transactions` (lines 61-80):
the `(index, stripped line)` pairs whose stripped line is non-empty and
matches one of the three anchor formats. -/
def dbs_anchors (lines : List String) : List (Nat × String) :=
  lines.enum.filterMap (fun p =>
    let s := pyStrip p.2
    if s = "" then none
    else if dbs_is_anchor s then some (p.1, s) else none)

/-- The body of the per-anchor loop of `DBSBankProcessor.extract_transactions`
(lines 85-124): parse the anchor line, stitch up to 4 following lines into
the description, categorize, and re-derive the transaction type with
`determine_transaction_type`; an exception from the latter (`float` on a
malformed amount token) is the only way this body can raise. -/
def dbs_try_anchor (tax : Taxonomy) (lines : List String) (a : Nat × String) :
    Except Unit DBSTransaction :=
  let t := parse_dbs_transaction_line a.2
  let descLines := t.transaction_details :: stitchLoop dbs_cont_cond ((lines.drop (a.1 + 1)).take 4)
  let full := pyStrip (pyJoinSpace descLines)
  let cat := categorize_merchant_base tax full
  match determine_transaction_type full t.withdrawal t.deposit with
  | .error e => .error e
  | .ok ty =>
    .ok { t with transaction_details := full, merchant_category := cat, transaction_type := ty }

/-- `DBSBankProcessor.extract_transactions` (dbs_processor.py, lines 53-127):
scan for anchor lines, then process each inside `try`/`except`/`continue`,
appending each successfully built record. -/
def dbs_extract_transactions (tax : Taxonomy) (text : String) : List DBSTransaction :=
  let lines := pyLines text
  (dbs_anchors lines).foldl (fun acc a => appendOk acc (dbs_try_anchor tax lines a)) []

/-!
## OCBC processor (`ocbc_processor_v2.py`)
-/

/-- An OCBC transaction record (the dict built by `OCBCBankProcessor`). -/
structure OCBCTransaction where
  transaction_date : String := ""
  value_date : String := ""
  description : String := ""
  cheque : String := ""
  withdrawal : String := ""
  deposit : String := ""
  balance : String := ""
  transaction_type : String := ""
  merchant_category : String := ""
deriving DecidableEq, Repr, Inhabited

/-- `OCBCBankProcessor.clean_text`: as the DBS version, but the
balance-brought-forward comparison is against the uppercased text. -/
def ocbc_clean_text (s : String) : String :=
  if s = "" then ""
  else
    let t : String := ⟨subWsGo (s.data.length + 1) (stripChars s.data)⟩
    if pyToUpper t = "BALANCE B/F" then "Balance Brought Forward" else t

/-- The OCBC date-anchor test `re.match(r'^\d{1,2}\s+[A-Z]{3,4}', line)`. -/
def ocbc_date_start (s : String) : Bool :=
  reTest (mSeq (mFromTo mDigit 1 2) (mSeq (mWsPlus s.data.length) (mFromTo mUpperChar 3 4))) s

/-- The amount-presence test `re.search(r'\d{1,3}(?:,\d{3})*(?:\.\d{2})?', line)`. -/
def amount_search (s : String) : Bool := reSearch (amountRE s.data.length) s

/-- `OCBCBankProcessor._is_amount`-style full-token amount test used in
`_parse_ocbc_transaction_line`: `re.match(r'^\d{1,3}(?:,\d{3})*(?:\.\d{2})?$', token)`. -/
def is_amount_token (s : String) : Bool := reTestFull (amountRE s.data.length) s

/-- `description += ' ' + more` when a description is already present,
else start it (`_parse_ocbc_transaction_line`). -/
def joinDesc (old more : String) : String :=
  if old ≠ "" then ⟨old.data ++ [' '] ++ more.data⟩ else more

/-- `OCBCBankProcessor._parse_ocbc_transaction_line` (ocbc_processor_v2.py,
lines 360-430): split on 2+ whitespace; fewer than 3 parts aborts; part 0 is
the date, part 1 an amount (withdrawal) or description, part 2 a balance or
description, and the remaining parts extend the description. -/
def parse_ocbc_transaction_line (line : String) : Option OCBCTransaction :=
  let parts := pySplitWs2 (pyStrip line)
  if parts.length < 3 then none
  else
    let t0 : OCBCTransaction := { transaction_date := ocbc_clean_text (parts.getD 0 "") }
    let t1 :=
      if is_amount_token (parts.getD 1 "") then
        { t0 with withdrawal := parts.getD 1 "", deposit := "" }
      else { t0 with description := parts.getD 1 "" }
    let t2 :=
      if is_amount_token (parts.getD 2 "") then { t1 with balance := parts.getD 2 "" }
      else { t1 with description := joinDesc t1.description (parts.getD 2 "") }
    let t3 :=
      if parts.length ≥ 4 then
        { t2 with description := joinDesc t2.description (pyJoinSpace (parts.drop 3)) }
      else t2
    some { t3 with description := ocbc_clean_text t3.description }

/-- `OCBCBankProcessor._assign_ocbc_transaction_type`'s deposit keywords. -/
def ocbcDepositKeywords : List String :=
  ["PAYMENT /TRANSFER OTHR", "GIRO PAYMENT", "FAST TRANSFER OTHR", "TRANSFER",
   "CASH REBATE", "ALLW", "BEXP"]

/-- `OCBCBankProcessor._assign_ocbc_transaction_type`'s withdrawal keywords. -/
def ocbcWithdrawalKeywords : List String :=
  ["DEBIT PURCHASE", "CHARGES", "CCY CONVERSION FEE", "FAST TRANSFER OTHR"]

/-- `OCBCBankProcessor._assign_ocbc_transaction_type` (ocbc_processor_v2.py,
lines 235-279): take the captured amount (`withdrawal or deposit`), clear
both fields, and place it by the first matching keyword list (deposit
keywords first), defaulting to a withdrawal. -/
def assign_ocbc_transaction_type (t : OCBCTransaction) : OCBCTransaction :=
  let description := pyToUpper t.description
  let amount := if t.withdrawal ≠ "" then t.withdrawal else t.deposit
  if kwAny ocbcDepositKeywords description then
    { t with withdrawal := "", deposit := amount, transaction_type := "Deposit" }
  else if kwAny ocbcWithdrawalKeywords description then
    { t with withdrawal := amount, deposit := "", transaction_type := "Withdrawal" }
  else
    { t with withdrawal := amount, deposit := "", transaction_type := "Withdrawal" }

/-- The OCBC continuation condition (ocbc_processor_v2.py, lines 209-211):
not date-initial, not amount-initial, and longer than 3 characters. -/
def ocbc_cont_cond (s : String) : Bool :=
  !ocbc_date_start s && !amount_start s && decide (s.data.length > 3)

/-- The anchor scan of `OCBCBankProcessor.extract_transactions` (lines
179-189): non-empty stripped lines that start with a date pattern and
contain an amount pattern somewhere. -/
def ocbc_anchors (lines : List String) : List (Nat × String) :=
  lines.enum.filterMap (fun p =>
    let s := pyStrip p.2
    if s = "" then none
    else if ocbc_date_start s && amount_search s then some (p.1, s) else none)

/-- The body of the per-anchor loop of `OCBCBankProcessor.extract_transactions`
(lines 194-230): parse (skipping on `None`), stitch up to 4 following lines,
categorize with the v2 `categorize_merchant`, then assign the transaction
type from the full stitched description.  No statement here can raise. -/
def ocbc_process_anchor (tax : Taxonomy) (lines : List String) (a : Nat × String) :
    Option OCBCTransaction :=
  match parse_ocbc_transaction_line a.2 with
  | none => none
  | some t =>
    let descLines := t.description :: stitchLoop ocbc_cont_cond ((lines.drop (a.1 + 1)).take 4)
    let full := pyStrip (pyJoinSpace descLines)
    let t := { t with description := full, merchant_category := categorize_merchant_v2 tax full }
    some (assign_ocbc_transaction_type t)

/-- `OCBCBankProcessor.extract_transactions` (ocbc_processor_v2.py, lines
171-233). -/
def ocbc_extract_transactions (tax : Taxonomy) (text : String) : List OCBCTransaction :=
  let lines := pyLines text
  (ocbc_anchors lines).foldl (fun acc a => appendSome acc (ocbc_process_anchor tax lines a)) []

/-!
## Format registry (`multi_format_processor.py`)
-/

/-- The two registered bank formats. -/
inductive Bank
  | ocbc
  | dbs
deriving DecidableEq, Repr

/-- `OCBCBankProcessor.detect_format`'s indicator markers. -/
def ocbcIndicators : List String :=
  ["OCBC Bank", "Oversea-Chinese Banking Corporation Limited", "BUSINESS GROWTH ACCOUNT",
   "OCBC Centre Branch", "65 Chulia Street"]

/-- `DBSBankProcessor.detect_format`'s indicator markers. -/
def dbsIndicators : List String :=
  ["DBS Bank Ltd", "DBS Corporate Current Account", "Marina Bay Financial Centre",
   "www.dbs.com"]

/-- `detect_format` of each processor: some indicator occurs
case-insensitively in the text. -/
def detect_format : Bank → String → Bool
  | .ocbc, text => kwAnyLower ocbcIndicators (pyToLower text)
  | .dbs, text => kwAnyLower dbsIndicators (pyToLower text)

/-- `MultiFormatProcessor._register_processors` (multi_format_processor.py,
lines 31-37): OCBC first, then DBS. -/
def registered_processors : List Bank := [Bank.ocbc, Bank.dbs]

/-- `MultiFormatProcessor.detect_bank_format` (multi_format_processor.py,
lines 39-47): first registered processor whose predicate matches, else
`None`. -/
def detect_bank_format (text : String) : Option Bank :=
  registered_processors.find? (fun p => detect_format p text)

/-- Outcome of processing one document's already-extracted text. -/
inductive ProcessOutcome
  | unsupported
  | ocbcResult (rs : List OCBCTransaction)
  | dbsResult (rs : List DBSTransaction)
deriving DecidableEq, Repr

/-- The text-processing core of `MultiFormatProcessor.process_file`
(multi_format_processor.py, lines 71-104): dispatch on `detect_bank_format`;
no match yields the unsupported-format failure result instead of raising. -/
def process_text (tax : Taxonomy) (text : String) : ProcessOutcome :=
  match detect_bank_format text with
  | none => .unsupported
  | some .ocbc => .ocbcResult (ocbc_extract_transactions tax text)
  | some .dbs => .dbsResult (dbs_extract_transactions tax text)

/-!
## Batching (`app.py` `process_batch`, `ocbc_processor.py` `process_files_in_batches`)
-/

/-- `range(start, stop, step)` for a positive step; fueled (the fuel bounds
the number of iterations, `stop - start` always suffices for `step ≥ 1`). -/
def pyRangeAux (step : Nat) : Nat → Nat → Nat → List Nat
  | 0, _, _ => []
  | f + 1, start, stop => if start < stop then start :: pyRangeAux step f (start + step) stop else []

/-- `range(0, stop, step)`. -/
def pyRange0 (stop step : Nat) : List Nat := pyRangeAux step stop 0 stop

/-- The chunking loop of `app.process_batch` (app.py, lines 391-421):
`for i in range(0, len(xs), batch_size): chunks.append(xs[i:i + batch_size])`. -/
def process_batch_chunks {α : Type} (size : Nat) (xs : List α) : List (List α) :=
  (pyRange0 xs.length size).map (fun i => (xs.drop i).take size)

/-- The chunking of `OCBCStatementProcessor.process_files_in_batches`
(ocbc_processor.py, lines 954-969): `total_batches = ceil(n / size)`;
batch `b` is `xs[b*size : min(b*size + size, n)]`. -/
def process_files_in_batches_chunks {α : Type} (size : Nat) (xs : List α) : List (List α) :=
  (List.range ((xs.length + size - 1) / size)).map
    (fun b => (xs.drop (b * size)).take (min (b * size + size) xs.length - b * size))


/-!
## Helper lemmas
-/

/-- The stitching loop skips blank lines and takes the longest run of
absorbable lines: it equals `takeWhile` of the condition over the non-blank
stripped lines of the window. -/
theorem stitchLoop_eq (cond : String → Bool) (ls : List String) :
    stitchLoop cond ls = ((ls.map pyStrip).filter (fun s => s ≠ "")).takeWhile cond := by
  induction ls with
  | nil => rfl
  | cons l rest ih =>
    by_cases h : pyStrip l = ""
    · simp [stitchLoop, List.filter_cons, h, ih]
    · by_cases hc : cond (pyStrip l) <;>
        simp [stitchLoop, List.filter_cons, h, hc, ih, List.takeWhile_cons]

/-- An accumulate-on-success loop over `Except` results is the
concatenation of the per-element successes, in order. -/
theorem foldl_appendOk {A B E : Type} (f : A → Except E B) (as : List A) (acc : List B) :
    as.foldl (fun acc a => appendOk acc (f a)) acc
      = acc ++ (as.map f).filterMap Except.toOption := by
  induction as generalizing acc with
  | nil => simp
  | cons a rest ih =>
    rw [List.foldl_cons, ih]
    cases h : f a with
    | ok r => simp [appendOk, h, Except.toOption]
    | error e => simp [appendOk, h, Except.toOption]

/-- An accumulate-on-`some` loop over `Option` results is `filterMap`. -/
theorem foldl_appendSome {A B : Type} (f : A → Option B) (as : List A) (acc : List B) :
    as.foldl (fun acc a => appendSome acc (f a)) acc = acc ++ as.filterMap f := by
  induction as generalizing acc with
  | nil => simp
  | cons a rest ih =>
    rw [List.foldl_cons, ih]
    cases h : f a with
    | some r => simp [appendSome, h]
    | none => simp [appendSome, h]

/-- The DBS extraction loop, with its per-line `try`/`except`/`continue`,
equals independent per-anchor processing with the failures dropped. -/
theorem dbs_extract_eq (tax : Taxonomy) (text : String) :
    dbs_extract_transactions tax text
      = ((dbs_anchors (pyLines text)).map
          (dbs_try_anchor tax (pyLines text))).filterMap Except.toOption := by
  show (dbs_anchors (pyLines text)).foldl
      (fun acc a => appendOk acc (dbs_try_anchor tax (pyLines text) a)) [] = _
  rw [foldl_appendOk]
  rfl

/-- The OCBC extraction loop equals independent per-anchor processing. -/
theorem ocbc_extract_eq (tax : Taxonomy) (text : String) :
    ocbc_extract_transactions tax text
      = (ocbc_anchors (pyLines text)).filterMap (ocbc_process_anchor tax (pyLines text)) := by
  show (ocbc_anchors (pyLines text)).foldl
      (fun acc a => appendSome acc (ocbc_process_anchor tax (pyLines text) a)) [] = _
  rw [foldl_appendSome]
  rfl

/-- Membership in a DBS extraction comes from a successfully processed
anchor. -/
theorem mem_dbs_extract {tax : Taxonomy} {text : String} {r : DBSTransaction} :
    r ∈ dbs_extract_transactions tax text ↔
      ∃ a ∈ dbs_anchors (pyLines text),
        dbs_try_anchor tax (pyLines text) a = Except.ok r := by
  rw [dbs_extract_eq]
  simp only [List.mem_filterMap, List.mem_map]
  constructor
  · rintro ⟨x, ⟨a, ha, rfl⟩, hx⟩
    refine ⟨a, ha, ?_⟩
    cases h : dbs_try_anchor tax (pyLines text) a with
    | ok b => rw [h] at hx; cases hx; rfl
    | error e => rw [h] at hx; cases hx
  · rintro ⟨a, ha, h⟩
    exact ⟨Except.ok r, ⟨a, ha, h⟩, rfl⟩

/-- Membership in an OCBC extraction comes from a successfully processed
anchor. -/
theorem mem_ocbc_extract {tax : Taxonomy} {text : String} {r : OCBCTransaction} :
    r ∈ ocbc_extract_transactions tax text ↔
      ∃ a ∈ ocbc_anchors (pyLines text),
        ocbc_process_anchor tax (pyLines text) a = some r := by
  rw [ocbc_extract_eq]
  simp [List.mem_filterMap]

/-- `_assign_dbs_transaction_type` never populates both amount fields. -/
theorem assign_dbs_amount_fields (t : DBSTransaction) :
    (assign_dbs_transaction_type t).withdrawal = "" ∨
      (assign_dbs_transaction_type t).deposit = "" := by
  simp only [assign_dbs_transaction_type]
  split_ifs <;> simp

/-- `_assign_ocbc_transaction_type` never populates both amount fields. -/
theorem assign_ocbc_amount_fields (t : OCBCTransaction) :
    (assign_ocbc_transaction_type t).withdrawal = "" ∨
      (assign_ocbc_transaction_type t).deposit = "" := by
  simp only [assign_ocbc_transaction_type]
  split_ifs <;> simp

/-- `_assign_dbs_transaction_type` leaves the date fields alone. -/
theorem assign_dbs_dates (t : DBSTransaction) :
    (assign_dbs_transaction_type t).value_date = t.value_date ∧
      (assign_dbs_transaction_type t).transaction_date = t.transaction_date := by
  simp only [assign_dbs_transaction_type]
  split_ifs <;> simp

/-- `_assign_ocbc_transaction_type` only emits the two directional labels. -/
theorem assign_ocbc_type (t : OCBCTransaction) :
    (assign_ocbc_transaction_type t).transaction_type = "Deposit" ∨
      (assign_ocbc_transaction_type t).transaction_type = "Withdrawal" := by
  simp only [assign_ocbc_transaction_type]
  split_ifs <;> simp

/-- Every branch of `_parse_dbs_transaction_line`'s field extraction copies
the transaction date into the value date. -/
theorem dbs_parse_fields_value_date (line : String) :
    (dbs_parse_fields line).value_date = (dbs_parse_fields line).transaction_date := by
  simp only [dbs_parse_fields]
  split_ifs <;> try rfl
  split <;> rfl

/-- `determine_transaction_type` only ever returns one of the three
documented labels. -/
theorem determine_cases {d w dep ty : String}
    (h : determine_transaction_type d w dep = Except.ok ty) :
    ty = "Deposit" ∨ ty = "Withdrawal" ∨ ty = "Mixed" := by
  simp only [determine_transaction_type, determineFallbackDeposit] at h
  split_ifs at h
  all_goals try split at h
  all_goals try split_ifs at h
  all_goals try split at h
  all_goals try split_ifs at h
  all_goals simp_all

/-- Elements of `pyRangeAux`: position `k` holds `start + k * step` while
that is below `stop`. -/
theorem pyRangeAux_getElem? {step : Nat} (_h1 : 1 ≤ step) :
    ∀ (f start stop k : Nat), stop ≤ start + f * step →
      (pyRangeAux step f start stop)[k]? =
        if start + k * step < stop then some (start + k * step) else none := by
  intro f
  induction f with
  | zero =>
    intro start stop k h
    have hk : start ≤ start + k * step := Nat.le_add_right _ _
    simp only [pyRangeAux, List.getElem?_nil]
    rw [if_neg (by omega)]
  | succ f ih =>
    intro start stop k h
    rw [pyRangeAux]
    by_cases hs : start < stop
    · rw [if_pos hs]
      cases k with
      | zero => simp [hs]
      | succ k =>
        rw [List.getElem?_cons_succ]
        have hfuel : stop ≤ (start + step) + f * step := by
          rw [Nat.succ_mul] at h; omega
        rw [ih (start + step) stop k hfuel]
        have harith : start + step + k * step = start + (k + 1) * step := by
          rw [Nat.succ_mul]; omega
        rw [harith]
    · rw [if_neg hs]
      have hk : start ≤ start + k * step := Nat.le_add_right _ _
      simp only [List.getElem?_nil]
      rw [if_neg (by omega)]

/-- Length of `pyRangeAux`: the ceiling of `(stop - start) / step`. -/
theorem pyRangeAux_length {step : Nat} (h1 : 1 ≤ step) :
    ∀ (f start stop : Nat), stop ≤ start + f * step →
      (pyRangeAux step f start stop).length = (stop - start + step - 1) / step := by
  intro f
  induction f with
  | zero =>
    intro start stop h
    simp only [pyRangeAux, List.length_nil]
    have : stop - start = 0 := by omega
    rw [this, Nat.zero_add]
    exact (Nat.div_eq_of_lt (by omega)).symm
  | succ f ih =>
    intro start stop h
    rw [pyRangeAux]
    by_cases hs : start < stop
    · rw [if_pos hs, List.length_cons]
      have hfuel : stop ≤ (start + step) + f * step := by
        rw [Nat.succ_mul] at h; omega
      rw [ih (start + step) stop hfuel]
      by_cases hg : step ≤ stop - start
      · have e1 : stop - (start + step) + step - 1 = stop - start - 1 := by omega
        have e2 : stop - start + step - 1 = (stop - start - 1) + step := by omega
        rw [e1, e2, Nat.add_div_right _ (by omega)]
      · have e1 : stop - (start + step) = 0 := by omega
        rw [e1]
        have e2 : (0 + step - 1) / step = 0 := Nat.div_eq_of_lt (by omega)
        rw [e2]
        exact (Nat.div_eq_of_lt_le (by omega) (by omega)).symm
    · rw [if_neg hs]
      have : stop - start = 0 := by omega
      simp only [List.length_nil, this, Nat.zero_add]
      exact (Nat.div_eq_of_lt (by omega)).symm

/-- Shifting both bounds of `pyRangeAux` shifts every element. -/
theorem pyRangeAux_shift (step : Nat) :
    ∀ (f start stop d : Nat),
      pyRangeAux step f (start + d) (stop + d) = (pyRangeAux step f start stop).map (· + d) := by
  intro f
  induction f with
  | zero => intro start stop d; rfl
  | succ f ih =>
    intro start stop d
    rw [pyRangeAux, pyRangeAux]
    by_cases hs : start < stop
    · rw [if_pos (by omega), if_pos hs, List.map_cons]
      have : start + d + step = (start + step) + d := by omega
      rw [this, ih]
    · rw [if_neg (by omega), if_neg hs]
      rfl

/-- Sufficient fuel never changes `pyRangeAux`. -/
theorem pyRangeAux_fuel {step : Nat} (h1 : 1 ≤ step) (f g start stop : Nat)
    (hf : stop ≤ start + f * step) (hg : stop ≤ start + g * step) :
    pyRangeAux step f start stop = pyRangeAux step g start stop := by
  apply List.ext_getElem?
  intro k
  rw [pyRangeAux_getElem? h1 f start stop k hf, pyRangeAux_getElem? h1 g start stop k hg]

/-- `app.process_batch` chunking, element form: chunk `k` is the slice
`xs[k*size : k*size + size]`, present exactly while `k*size < |xs|`. -/
theorem process_batch_chunks_getElem? {α : Type} {size : Nat} (h1 : 1 ≤ size)
    (xs : List α) (k : Nat) :
    (process_batch_chunks size xs)[k]? =
      if k * size < xs.length then some ((xs.drop (k * size)).take size) else none := by
  have hfuel : xs.length ≤ 0 + xs.length * size := by
    have := Nat.le_mul_of_pos_right xs.length (by omega : 0 < size)
    omega
  rw [process_batch_chunks, pyRange0, List.getElem?_map,
    pyRangeAux_getElem? h1 xs.length 0 xs.length k hfuel]
  by_cases hk : 0 + k * size < xs.length
  · rw [if_pos hk, if_pos (by omega)]
    simp
  · rw [if_neg hk, if_neg (by omega)]
    rfl

/-- `app.process_batch` chunking: the number of chunks is the ceiling
`(n + size - 1) / size`. -/
theorem process_batch_chunks_length {α : Type} {size : Nat} (h1 : 1 ≤ size) (xs : List α) :
    (process_batch_chunks size xs).length = (xs.length + size - 1) / size := by
  have hfuel : xs.length ≤ 0 + xs.length * size := by
    have := Nat.le_mul_of_pos_right xs.length (by omega : 0 < size)
    omega
  rw [process_batch_chunks, List.length_map, pyRange0,
    pyRangeAux_length h1 xs.length 0 xs.length hfuel, Nat.sub_zero]

/-- Peeling one chunk off the `app.process_batch` chunking. -/
theorem process_batch_chunks_cons {α : Type} {size : Nat} (h1 : 1 ≤ size)
    (xs : List α) (hx : xs ≠ []) :
    process_batch_chunks size xs = xs.take size :: process_batch_chunks size (xs.drop size) := by
  obtain ⟨m, hm⟩ : ∃ m, xs.length = m + 1 := by
    cases hnl : xs.length with
    | zero => exact absurd (List.length_eq_zero.1 hnl) hx
    | succ m => exact ⟨m, rfl⟩
  rw [process_batch_chunks, process_batch_chunks, pyRange0, pyRange0, hm, pyRangeAux,
    if_pos (Nat.succ_pos m), List.map_cons, List.drop_zero, List.length_drop, hm]
  refine congrArg (xs.take size :: ·) ?_
  by_cases hsz : size ≤ m + 1
  · have e2 : pyRangeAux size m (0 + size) (m + 1)
        = (pyRangeAux size m 0 (m + 1 - size)).map (· + size) := by
      conv_lhs => rw [show m + 1 = (m + 1 - size) + size by omega]
      exact pyRangeAux_shift size m 0 (m + 1 - size) size
    rw [e2, pyRangeAux_fuel h1 m (m + 1 - size) 0 (m + 1 - size)
        (by have := Nat.le_mul_of_pos_right m (show 0 < size by omega); omega)
        (by have := Nat.le_mul_of_pos_right (m + 1 - size) (show 0 < size by omega); omega),
      List.map_map]
    refine List.map_congr_left ?_
    intro i _
    simp only [Function.comp_apply]
    rw [List.drop_drop]
    congr 2
    omega
  · have htail : pyRangeAux size m (0 + size) (m + 1) = [] := by
      cases m with
      | zero => rfl
      | succ m' => rw [pyRangeAux, if_neg (by omega)]
    have hdrop : m + 1 - size = 0 := by omega
    rw [htail, hdrop]
    rfl

/-- Concatenating the `app.process_batch` chunks restores the input. -/
theorem process_batch_chunks_flatten_aux {α : Type} {size : Nat} (h1 : 1 ≤ size) :
    ∀ (n : Nat) (xs : List α), xs.length ≤ n →
      (process_batch_chunks size xs).flatten = xs := by
  intro n
  induction n with
  | zero =>
    intro xs h
    have : xs = [] := List.length_eq_zero.1 (by omega)
    subst this
    rfl
  | succ n ih =>
    intro xs h
    by_cases hx : xs = []
    · subst hx; rfl
    · have hlen : 1 ≤ xs.length := List.length_pos.2 hx
      rw [process_batch_chunks_cons h1 xs hx, List.flatten_cons,
        ih (xs.drop size) (by rw [List.length_drop]; omega)]
      exact List.take_append_drop size xs

/-- The `ocbc_processor.process_files_in_batches` chunking computes the same
chunks as the `app.process_batch` chunking. -/
theorem batches_v2_eq {α : Type} {size : Nat} (h1 : 1 ≤ size) (xs : List α) :
    process_files_in_batches_chunks size xs = process_batch_chunks size xs := by
  apply List.ext_getElem?
  intro k
  rw [process_batch_chunks_getElem? h1, process_files_in_batches_chunks, List.getElem?_map]
  have hiff : k < (xs.length + size - 1) / size ↔ k * size < xs.length := by
    rw [Nat.lt_iff_add_one_le, Nat.le_div_iff_mul_le (show 0 < size by omega), Nat.succ_mul]
    omega
  by_cases hk : k < (xs.length + size - 1) / size
  · rw [List.getElem?_range hk, if_pos (hiff.1 hk)]
    simp only [Option.map_some']
    congr 1
    rw [List.take_eq_take]
    simp only [List.length_drop]
    omega
  · rw [if_neg (fun h => hk (hiff.2 h)), List.getElem?_eq_none (by simpa using not_lt.1 hk)]
    rfl

/-- The keyword loop finds a match iff some keyword is (lowercased) a
substring of the scanned text. -/
theorem kwAnyLower_iff (kws : List String) (dl : String) :
    kwAnyLower kws dl = true ↔ ∃ k ∈ kws, containsStr dl (pyToLower k) = true := by
  induction kws with
  | nil => simp [kwAnyLower]
  | cons k rest ih =>
    by_cases h : containsStr dl (pyToLower k) <;> simp [kwAnyLower, h, ih]

/-- Negation form of `kwAnyLower_iff`. -/
theorem kwAnyLower_false_iff (kws : List String) (dl : String) :
    kwAnyLower kws dl = false ↔ ∀ k ∈ kws, containsStr dl (pyToLower k) = false := by
  rw [← Bool.not_eq_true, kwAnyLower_iff]
  simp

/-- First-match-wins characterization of the categorization loop: either no
category matches and the result is `"Other"`, or the taxonomy splits around
the first matching category, which is returned. -/
theorem categorizeLoop_spec (dl : String) (tax : Taxonomy) :
    (categorizeLoop dl tax = "Other" ∧ ∀ p ∈ tax, kwAnyLower p.2 dl = false) ∨
    (∃ pre cat kws post, tax = pre ++ (cat, kws) :: post ∧
      categorizeLoop dl tax = cat ∧ kwAnyLower kws dl = true ∧
      ∀ p ∈ pre, kwAnyLower p.2 dl = false) := by
  induction tax with
  | nil => exact Or.inl ⟨rfl, by simp⟩
  | cons hd rest ih =>
    obtain ⟨cat, kws⟩ := hd
    by_cases h : kwAnyLower kws dl
    · exact Or.inr ⟨[], cat, kws, rest, rfl, by simp [categorizeLoop, h], h, by simp⟩
    · rcases ih with ⟨ho, hall⟩ | ⟨pre, cat2, kws2, post, heq, hval, hkw, hpre⟩
      · refine Or.inl ⟨by simp [categorizeLoop, h, ho], ?_⟩
        intro p hp
        rcases List.mem_cons.1 hp with rfl | hp
        · simpa using h
        · exact hall p hp
      · refine Or.inr ⟨(cat, kws) :: pre, cat2, kws2, post, by rw [heq]; rfl,
          by simp [categorizeLoop, h, hval], hkw, ?_⟩
        intro p hp
        rcases List.mem_cons.1 hp with rfl | hp
        · simpa using h
        · exact hpre p hp

/-- `_parse_dbs_transaction_line` always emits matching value and
transaction dates. -/
theorem parse_dbs_value_date (line : String) :
    (parse_dbs_transaction_line line).value_date =
      (parse_dbs_transaction_line line).transaction_date := by
  show (assign_dbs_transaction_type _).value_date = (assign_dbs_transaction_type _).transaction_date
  rw [(assign_dbs_dates _).1, (assign_dbs_dates _).2]
  simpa using dbs_parse_fields_value_date line

/-!
## Claim theorems
-/

/-- C1, counterexample.  The DBS anchor line `"01-Sep-22 580.00"` (date and
amount, but fewer than three whitespace tokens, so the field-extraction
branch assigns nothing) is emitted as a record in which NEITHER the
withdrawal nor the deposit field is populated, refuting the claimed "never
neither" half of the invariant. -/
theorem c1_counterexample :
    (dbs_extract_transactions defaultTaxonomy "01-Sep-22 580.00").map
        (fun r => (r.withdrawal, r.deposit)) = [("", "")] := by
  decide

/-- C1, amended: for every record emitted by `extract_transactions` of
either processor, AT MOST one of the withdrawal and deposit fields is
populated — never both; but both may be empty (exactly when the anchor line
yielded no amount token). -/
theorem c1_amended :
    (∀ (tax : Taxonomy) (text : String) (r : DBSTransaction),
        r ∈ dbs_extract_transactions tax text → r.withdrawal = "" ∨ r.deposit = "") ∧
    (∀ (tax : Taxonomy) (text : String) (r : OCBCTransaction),
        r ∈ ocbc_extract_transactions tax text → r.withdrawal = "" ∨ r.deposit = "") := by
  constructor
  · intro tax text r hr
    obtain ⟨a, _, h⟩ := mem_dbs_extract.1 hr
    simp only [dbs_try_anchor] at h
    split at h
    · exact absurd h (by simp)
    · injection h with h2
      subst h2
      simpa using assign_dbs_amount_fields _
  · intro tax text r hr
    obtain ⟨a, _, h⟩ := mem_ocbc_extract.1 hr
    simp only [ocbc_process_anchor] at h
    split at h
    · exact absurd h (by simp)
    · injection h with h2
      subst h2
      exact assign_ocbc_amount_fields _

/-- C1, witness: the amended invariant applied to a concrete extraction. -/
theorem c1_witness :
    ((dbs_extract_transactions defaultTaxonomy "03-Sep-22 10.00 IBG GIRO PAYIN").head!).withdrawal
        = "" ∨
      ((dbs_extract_transactions defaultTaxonomy "03-Sep-22 10.00 IBG GIRO PAYIN").head!).deposit
        = "" :=
  c1_amended.1 defaultTaxonomy "03-Sep-22 10.00 IBG GIRO PAYIN" _
    (List.head!_mem_self (by decide))

/-- C9, confirmed (Scenario 2): the DBS line
`"01-Sep-22 580.00 REMITTANCE TRANSFER OF FUNDS RTF"` parses to a record
with transaction date `01-Sep-22`, the amount `580.00` placed as a deposit,
and direction `Deposit`; the second conjunct shows the
`REMITTANCE TRANSFER OF FUNDS RTF` deposit keyword is what fires. -/
theorem c9_scenario2 :
    ((dbs_extract_transactions defaultTaxonomy
          "01-Sep-22 580.00 REMITTANCE TRANSFER OF FUNDS RTF").map
        (fun r => (r.transaction_date, r.deposit, r.withdrawal, r.transaction_type))
      = [("01-Sep-22", "580.00", "", "Deposit")]) ∧
    kwAny dbsDepositKeywords (pyToUpper "REMITTANCE TRANSFER OF FUNDS RTF") = true := by
  exact ⟨by decide, by decide⟩

/-- C10, confirmed: every record emitted by the DBS parser has
`value_date = transaction_date` (all three `_parse_dbs_transaction_line`
branches copy the one into the other, and nothing downstream touches the
dates). -/
theorem c10_value_date :
    ∀ (tax : Taxonomy) (text : String) (r : DBSTransaction),
      r ∈ dbs_extract_transactions tax text → r.value_date = r.transaction_date := by
  intro tax text r hr
  obtain ⟨a, _, h⟩ := mem_dbs_extract.1 hr
  simp only [dbs_try_anchor] at h
  split at h
  · exact absurd h (by simp)
  · injection h with h2
    subst h2
    simpa using parse_dbs_value_date a.2

/-- C10, witness: the invariant applied to a concrete extraction. -/
theorem c10_witness :
    ((dbs_extract_transactions defaultTaxonomy "04-Sep-22 7.00 SERVICE CHARGE FEE").head!).value_date
      = ((dbs_extract_transactions defaultTaxonomy
          "04-Sep-22 7.00 SERVICE CHARGE FEE").head!).transaction_date :=
  c10_value_date defaultTaxonomy "04-Sep-22 7.00 SERVICE CHARGE FEE" _
    (List.head!_mem_self (by decide))

/-- C7, counterexample.  The DBS anchor line `"01-Sep-22 0.00 FOO BAR BAZ"`
matches no direction keyword and carries a zero amount, so
`determine_transaction_type` falls through to its final `"Mixed"` return,
and the emitted record's transaction_type is `"Mixed"` — neither
`"Deposit"` nor `"Withdrawal"`. -/
theorem c7_counterexample :
    (dbs_extract_transactions defaultTaxonomy "01-Sep-22 0.00 FOO BAR BAZ").map
        (fun r => r.transaction_type) = ["Mixed"] := by
  decide

/-- C7, amended: every OCBC record carries `"Deposit"` or `"Withdrawal"`;
every DBS record carries `"Deposit"`, `"Withdrawal"` or `"Mixed"` (the DBS
path re-derives the type through `determine_transaction_type`, whose
fallback can return `"Mixed"`). -/
theorem c7_amended :
    (∀ (tax : Taxonomy) (text : String) (r : OCBCTransaction),
        r ∈ ocbc_extract_transactions tax text →
          r.transaction_type = "Deposit" ∨ r.transaction_type = "Withdrawal") ∧
    (∀ (tax : Taxonomy) (text : String) (r : DBSTransaction),
        r ∈ dbs_extract_transactions tax text →
          r.transaction_type = "Deposit" ∨ r.transaction_type = "Withdrawal" ∨
            r.transaction_type = "Mixed") := by
  constructor
  · intro tax text r hr
    obtain ⟨a, _, h⟩ := mem_ocbc_extract.1 hr
    simp only [ocbc_process_anchor] at h
    split at h
    · exact absurd h (by simp)
    · injection h with h2
      subst h2
      exact assign_ocbc_type _
  · intro tax text r hr
    obtain ⟨a, _, h⟩ := mem_dbs_extract.1 hr
    simp only [dbs_try_anchor] at h
    split at h
    · exact absurd h (by simp)
    · rename_i ty hty
      injection h with h2
      subst h2
      simpa using determine_cases hty
  
/-- C7, witness: the amended invariant applied to a concrete OCBC
extraction. -/
theorem c7_witness :
    ((ocbc_extract_transactions defaultTaxonomy
          "01 JUN  5.00  6.00  SOMETHING NICE").head!).transaction_type = "Deposit" ∨
      ((ocbc_extract_transactions defaultTaxonomy
          "01 JUN  5.00  6.00  SOMETHING NICE").head!).transaction_type = "Withdrawal" :=
  c7_amended.1 defaultTaxonomy "01 JUN  5.00  6.00  SOMETHING NICE" _
    (List.head!_mem_self (by decide))

/-- C8, confirmed.  First conjunct: for every text, the DBS extraction loop
(whose body wraps each anchor line in `try`/`except`/`continue`) equals
processing every anchor independently and dropping the failures — so a
throwing line is skipped, no exception escapes, and other lines' records
are unaffected.  The remaining conjuncts exhibit this concretely: in a
three-line document whose middle anchor line carries the malformed amount
token `5x2xx9`, that line's processing raises (`Except.error`), and the
extraction yields exactly the records of the first and third lines —
precisely the concatenation of the two good lines' independent results. -/
theorem c8_line_errors :
    (∀ (tax : Taxonomy) (text : String),
        dbs_extract_transactions tax text
          = ((dbs_anchors (pyLines text)).map
              (dbs_try_anchor tax (pyLines text))).filterMap Except.toOption) ∧
    (dbs_try_anchor defaultTaxonomy
        (pyLines "01-Sep-22 580.00 REMITTANCE TRANSFER OF FUNDS RTF\n02-Sep-22 5x2xx9 ZZZZ QQQQ\n03-Sep-22 20.00 FAST PAYMENT JOHN")
        (1, "02-Sep-22 5x2xx9 ZZZZ QQQQ") = Except.error ()) ∧
    ((dbs_extract_transactions defaultTaxonomy
          "01-Sep-22 580.00 REMITTANCE TRANSFER OF FUNDS RTF\n02-Sep-22 5x2xx9 ZZZZ QQQQ\n03-Sep-22 20.00 FAST PAYMENT JOHN").map
        (fun r => (r.transaction_date, r.transaction_type))
      = [("01-Sep-22", "Deposit"), ("03-Sep-22", "Withdrawal")]) ∧
    (dbs_extract_transactions defaultTaxonomy
        "01-Sep-22 580.00 REMITTANCE TRANSFER OF FUNDS RTF\n02-Sep-22 5x2xx9 ZZZZ QQQQ\n03-Sep-22 20.00 FAST PAYMENT JOHN"
      = (dbs_try_anchor defaultTaxonomy
            (pyLines "01-Sep-22 580.00 REMITTANCE TRANSFER OF FUNDS RTF\n02-Sep-22 5x2xx9 ZZZZ QQQQ\n03-Sep-22 20.00 FAST PAYMENT JOHN")
            (0, "01-Sep-22 580.00 REMITTANCE TRANSFER OF FUNDS RTF")).toOption.toList ++
        (dbs_try_anchor defaultTaxonomy
            (pyLines "01-Sep-22 580.00 REMITTANCE TRANSFER OF FUNDS RTF\n02-Sep-22 5x2xx9 ZZZZ QQQQ\n03-Sep-22 20.00 FAST PAYMENT JOHN")
            (2, "03-Sep-22 20.00 FAST PAYMENT JOHN")).toOption.toList) := by
  refine ⟨fun tax text => dbs_extract_eq tax text, by rfl, by decide, by decide⟩

/-- C2, confirmed: `detect_bank_format` tries the registered processors in
registration order — OCBC first, then DBS — returning the first whose
`detect_format` predicate is true and `none` when neither matches; and a
text on which detection fails is processed to the unsupported-format
failure outcome rather than raising. -/
theorem c2_detect_dispatch :
    ∀ text : String,
      (detect_bank_format text =
        if detect_format Bank.ocbc text then some Bank.ocbc
        else if detect_format Bank.dbs text then some Bank.dbs
        else none) ∧
      (detect_bank_format text = none →
        ∀ tax : Taxonomy, process_text tax text = ProcessOutcome.unsupported) := by
  intro text
  constructor
  · show List.find? _ [Bank.ocbc, Bank.dbs] = _
    by_cases h1 : detect_format Bank.ocbc text <;>
      by_cases h2 : detect_format Bank.dbs text <;>
        simp [List.find?_cons, h1, h2]
  · intro hn tax
    unfold process_text
    rw [hn]

/-- C2, witness: a text with no institutional markers detects to `none` and
is reported unsupported. -/
theorem c2_witness :
    detect_bank_format "monthly statement with no markers" = none ∧
      process_text defaultTaxonomy "monthly statement with no markers"
        = ProcessOutcome.unsupported := by
  refine ⟨by decide, (c2_detect_dispatch "monthly statement with no markers").2 (by decide)
    defaultTaxonomy⟩

/-- C3, counterexample.  Two refutations of the claimed
"no keyword match plus a captured amount defaults to Withdrawal" fallback.
First, at the shared classifier: the description `"xyz office rent"`
matches neither keyword list, the captured amount sits in the deposit
field, and `determine_transaction_type` returns `Deposit`, not
`Withdrawal`.  Second, end to end: the DBS line
`"02-Sep-22 0.00 QUUX ZOT"` matches no keyword list and captured the
amount `0.00`, and the emitted direction is `"Mixed"`, not
`"Withdrawal"`. -/
theorem c3_counterexample :
    kwAnyLower baseDepositKeywords (pyToLower "xyz office rent") = false ∧
    kwAnyLower baseWithdrawalKeywords (pyToLower "xyz office rent") = false ∧
    determine_transaction_type "xyz office rent" "" "5.00" = Except.ok "Deposit" ∧
    kwAny dbsDepositKeywords (pyToUpper "QUUX ZOT") = false ∧
    kwAny dbsWithdrawalKeywords (pyToUpper "QUUX ZOT") = false ∧
    (dbs_extract_transactions defaultTaxonomy "02-Sep-22 0.00 QUUX ZOT").map
        (fun r => (r.withdrawal, r.transaction_type)) = [("0.00", "Mixed")] := by
  refine ⟨by decide, by decide, by rfl, by decide, by decide, by decide⟩

/-- C3, amended: deposit keywords are tested first (any match gives
Deposit), then withdrawal keywords (any match gives Withdrawal); when
neither list matches, the per-format assign helpers do default the captured
amount to Withdrawal, but the shared `determine_transaction_type` fallback
instead follows whichever amount field is populated — Withdrawal only if
the withdrawal field parses positive, else Deposit if the deposit field
parses positive, else `"Mixed"`. -/
theorem c3_amended :
    (∀ d w dep : String, kwAnyLower baseDepositKeywords (pyToLower d) = true →
        determine_transaction_type d w dep = Except.ok "Deposit") ∧
    (∀ d w dep : String, kwAnyLower baseDepositKeywords (pyToLower d) = false →
        kwAnyLower baseWithdrawalKeywords (pyToLower d) = true →
        determine_transaction_type d w dep = Except.ok "Withdrawal") ∧
    (∀ (d w dep : String) (v : PyFloatVal),
        kwAnyLower baseDepositKeywords (pyToLower d) = false →
        kwAnyLower baseWithdrawalKeywords (pyToLower d) = false →
        w ≠ "" → pyFloat (pyRemoveAll w ",") = some v → pyFloatPos v = true →
        determine_transaction_type d w dep = Except.ok "Withdrawal") ∧
    (∀ (d dep : String) (v : PyFloatVal),
        kwAnyLower baseDepositKeywords (pyToLower d) = false →
        kwAnyLower baseWithdrawalKeywords (pyToLower d) = false →
        dep ≠ "" → pyFloat (pyRemoveAll dep ",") = some v → pyFloatPos v = true →
        determine_transaction_type d "" dep = Except.ok "Deposit") ∧
    (∀ t : DBSTransaction,
        kwAny dbsDepositKeywords (pyToUpper t.transaction_details) = true →
          (assign_dbs_transaction_type t).transaction_type = "Deposit" ∧
            (assign_dbs_transaction_type t).deposit = t.withdrawal) ∧
    (∀ t : DBSTransaction,
        kwAny dbsDepositKeywords (pyToUpper t.transaction_details) = false →
        kwAny dbsWithdrawalKeywords (pyToUpper t.transaction_details) = true →
          (assign_dbs_transaction_type t).transaction_type = "Withdrawal" ∧
            (assign_dbs_transaction_type t).withdrawal = t.withdrawal) ∧
    (∀ t : DBSTransaction,
        kwAny dbsDepositKeywords (pyToUpper t.transaction_details) = false →
        kwAny dbsWithdrawalKeywords (pyToUpper t.transaction_details) = false →
          (assign_dbs_transaction_type t).transaction_type = "Withdrawal" ∧
            (assign_dbs_transaction_type t).withdrawal = t.withdrawal) ∧
    (∀ t : OCBCTransaction,
        kwAny ocbcDepositKeywords (pyToUpper t.description) = true →
          (assign_ocbc_transaction_type t).transaction_type = "Deposit") ∧
    (∀ t : OCBCTransaction,
        kwAny ocbcDepositKeywords (pyToUpper t.description) = false →
          (assign_ocbc_transaction_type t).transaction_type = "Withdrawal") := by
  refine ⟨?_, ?_, ?_, ?_, ?_, ?_, ?_, ?_, ?_⟩
  · intro d w dep h
    simp only [determine_transaction_type, h]
    rfl
  · intro d w dep h1 h2
    simp only [determine_transaction_type, h1, h2]
    rfl
  · intro d w dep v h1 h2 hw hv hpos
    simp only [determine_transaction_type, h1, h2, hv, hpos, if_pos hw]
    simp [hw, hv, hpos]
  · intro d dep v h1 h2 hdep hv hpos
    simp only [determine_transaction_type, determineFallbackDeposit, h1, h2]
    simp [hdep, hv, hpos]
  · intro t h
    simp only [assign_dbs_transaction_type, h]
    simp
  · intro t h1 h2
    simp only [assign_dbs_transaction_type, h1, h2]
    simp
  · intro t h1 h2
    simp only [assign_dbs_transaction_type, h1, h2]
    simp
  · intro t h
    simp only [assign_ocbc_transaction_type, h]
    simp
  · intro t h
    simp only [assign_ocbc_transaction_type, h]
    split_ifs <;> simp_all

/-- C3, witness: the deposit-keywords-first rule applied concretely. -/
theorem c3_witness :
    determine_transaction_type "ibg giro inward credit" "" "" = Except.ok "Deposit" :=
  c3_amended.1 "ibg giro inward credit" "" "" (by decide)

/-- C4, counterexample.  The v2 (OCBC) `categorize_merchant` guards on an
empty description before scanning: for the loaded taxonomy
`[("Degenerate", [""])]` (an empty keyword, as `"X = ,"` in the config
yields), the empty keyword does occur — vacuously — as a substring of the
empty description, and the base implementation accordingly returns the
category, but the v2 implementation returns `"Other"`, contradicting the
claim's "for every description string and every loaded taxonomy". -/
theorem c4_counterexample :
    containsStr (pyToLower "") (pyToLower "") = true ∧
    categorize_merchant_v2 [("Degenerate", [""])] "" = "Other" ∧
    categorize_merchant_base [("Degenerate", [""])] "" = "Degenerate" := by
  exact ⟨by decide, by decide, by decide⟩

/-- C4, amended: merchant categorization is first-match-wins in the
taxonomy's stored order with case-insensitive substring keyword matching,
and returns `"Other"` when nothing matches — exactly as claimed for the
base implementation; the v2 variant agrees on every non-empty description
but returns `"Other"` for an empty description even when an (empty)
keyword would match.  The last conjunct is the claim's Hero/Amazon
scenario: the earlier category wins. -/
theorem c4_amended :
    (∀ (tax : Taxonomy) (desc : String),
        (categorize_merchant_base tax desc = "Other" ∧
          ∀ p ∈ tax, ∀ k ∈ p.2, containsStr (pyToLower desc) (pyToLower k) = false) ∨
        (∃ pre cat kws post, tax = pre ++ (cat, kws) :: post ∧
          categorize_merchant_base tax desc = cat ∧
          (∃ k ∈ kws, containsStr (pyToLower desc) (pyToLower k) = true) ∧
          ∀ p ∈ pre, ∀ k ∈ p.2, containsStr (pyToLower desc) (pyToLower k) = false)) ∧
    (∀ (tax : Taxonomy) (desc : String), desc ≠ "" →
        categorize_merchant_v2 tax desc = categorize_merchant_base tax desc) ∧
    (∀ tax : Taxonomy, categorize_merchant_v2 tax "" = "Other") ∧
    (categorize_merchant_base
        [("Hero", ["hero", "delivery hero", "foodpanda"]), ("Amazon", ["amazon", "amzn"])]
        "AMAZON HERO PURCHASE" = "Hero" ∧
      categorize_merchant_v2
        [("Hero", ["hero", "delivery hero", "foodpanda"]), ("Amazon", ["amazon", "amzn"])]
        "AMAZON HERO PURCHASE" = "Hero") := by
  refine ⟨?_, ?_, ?_, by decide, by decide⟩
  · intro tax desc
    rcases categorizeLoop_spec (pyToLower desc) tax with ⟨ho, hall⟩ |
      ⟨pre, cat, kws, post, heq, hval, hkw, hpre⟩
    · refine Or.inl ⟨ho, ?_⟩
      intro p hp k hk
      exact (kwAnyLower_false_iff p.2 (pyToLower desc)).1 (hall p hp) k hk
    · refine Or.inr ⟨pre, cat, kws, post, heq, hval,
        (kwAnyLower_iff kws (pyToLower desc)).1 hkw, ?_⟩
      intro p hp k hk
      exact (kwAnyLower_false_iff p.2 (pyToLower desc)).1 (hpre p hp) k hk
  · intro tax desc h
    simp [categorize_merchant_v2, h]
  · intro tax
    rfl

/-- C4, witness: the v2/base agreement applied to a concrete non-empty
description. -/
theorem c4_witness :
    categorize_merchant_v2 defaultTaxonomy "lalamove trip 42"
      = categorize_merchant_base defaultTaxonomy "lalamove trip 42" :=
  c4_amended.2.1 defaultTaxonomy "lalamove trip 42" (by decide)

/-- C5, confirmed: for every batch size at least 1, the batching loop
produces `ceil(n / size)` chunks; chunk `k` (0-based; chunk `N = k + 1` of
the claim) is exactly the slice of the original sequence at indices
`[k*size, k*size + size)`; concatenating all chunks restores the original
sequence; and the `ocbc_processor.process_files_in_batches` chunking
computes the very same chunks. -/
theorem c5_batching {α : Type} (size : Nat) (xs : List α) (h : 1 ≤ size) :
    (process_batch_chunks size xs).length = (xs.length + size - 1) / size ∧
    (∀ k, k < (process_batch_chunks size xs).length →
        (process_batch_chunks size xs)[k]? = some ((xs.drop (k * size)).take size)) ∧
    (process_batch_chunks size xs).flatten = xs ∧
    process_files_in_batches_chunks size xs = process_batch_chunks size xs := by
  refine ⟨process_batch_chunks_length h xs, ?_,
    process_batch_chunks_flatten_aux h xs.length xs le_rfl, batches_v2_eq h xs⟩
  intro k hk
  rw [process_batch_chunks_length h] at hk
  have hks : k * size < xs.length := by
    rw [Nat.lt_iff_add_one_le, Nat.le_div_iff_mul_le (show 0 < size by omega),
      Nat.succ_mul] at hk
    omega
  rw [process_batch_chunks_getElem? h, if_pos hks]

/-- C5, witness: the batching properties at size 2 on a five-element
sequence. -/
theorem c5_witness :
    (process_batch_chunks 2 [0, 1, 2, 3, 4]).flatten = [0, 1, 2, 3, 4] ∧
    (process_batch_chunks 2 [0, 1, 2, 3, 4]).length = 3 ∧
    process_files_in_batches_chunks 2 [0, 1, 2, 3, 4] = process_batch_chunks 2 [0, 1, 2, 3, 4] := by
  have h := c5_batching 2 [0, 1, 2, 3, 4] (by decide)
  exact ⟨h.2.2.1, by rw [h.1]; rfl, h.2.2.2⟩

/-- C6, counterexample.  In the document whose second line is blank and
whose third line is `"EXTRA DESCRIPTION LINE"`, the claim says the blank
line — failing the non-empty condition — ends stitching, so the third line
would not be absorbed; the code instead SKIPS the blank line (`continue`)
and absorbs the third line into the description. -/
theorem c6_counterexample :
    (pyLines "01-Sep-22 580.00 REMITTANCE TRANSFER OF FUNDS RTF\n\nEXTRA DESCRIPTION LINE").map
        pyStrip
      = ["01-Sep-22 580.00 REMITTANCE TRANSFER OF FUNDS RTF", "", "EXTRA DESCRIPTION LINE"] ∧
    (dbs_extract_transactions defaultTaxonomy
        "01-Sep-22 580.00 REMITTANCE TRANSFER OF FUNDS RTF\n\nEXTRA DESCRIPTION LINE").map
        (fun r => r.transaction_details)
      = ["REMITTANCE TRANSFER OF FUNDS RTF EXTRA DESCRIPTION LINE"] := by
  exact ⟨by decide, by decide⟩

/-- C6, amended: stitching looks at most 4 lines past the anchor; within
that window BLANK lines are skipped rather than ending stitching, and a
non-blank (stripped) line is absorbed iff it does not start with the
format's date pattern, does not start with a digit (the amount prefix
pattern), and is longer than 3 characters; the first non-blank line failing
these conditions ends stitching (the `takeWhile` over the window's
non-blank stripped lines).  Such a line is not consumed: the anchor scan
runs over all lines beforehand, so (last two conjuncts) every anchor-shaped
line is collected as an anchor regardless of stitching. -/
theorem c6_amended :
    (∀ (lines : List String) (i : Nat),
        stitchLoop dbs_cont_cond ((lines.drop (i + 1)).take 4)
          = ((((lines.drop (i + 1)).take 4).map pyStrip).filter
              (fun s => s ≠ "")).takeWhile dbs_cont_cond) ∧
    (∀ (lines : List String) (i : Nat),
        stitchLoop ocbc_cont_cond ((lines.drop (i + 1)).take 4)
          = ((((lines.drop (i + 1)).take 4).map pyStrip).filter
              (fun s => s ≠ "")).takeWhile ocbc_cont_cond) ∧
    (∀ (lines : List String) (j : Nat) (hj : j < lines.length),
        pyStrip lines[j] ≠ "" → dbs_is_anchor (pyStrip lines[j]) = true →
          (j, pyStrip lines[j]) ∈ dbs_anchors lines) ∧
    (∀ (lines : List String) (j : Nat) (hj : j < lines.length),
        pyStrip lines[j] ≠ "" →
          (ocbc_date_start (pyStrip lines[j]) && amount_search (pyStrip lines[j])) = true →
          (j, pyStrip lines[j]) ∈ ocbc_anchors lines) := by
  refine ⟨fun lines i => stitchLoop_eq _ _, fun lines i => stitchLoop_eq _ _, ?_, ?_⟩
  · intro lines j hj h1 h2
    refine List.mem_filterMap.2 ⟨(j, lines[j]), ?_, ?_⟩
    · exact List.mem_enum_iff_getElem?.2 (by simp [List.getElem?_eq_getElem hj])
    · simp [h1, h2]
  · intro lines j hj h1 h2
    refine List.mem_filterMap.2 ⟨(j, lines[j]), ?_, ?_⟩
    · exact List.mem_enum_iff_getElem?.2 (by simp [List.getElem?_eq_getElem hj])
    · simp [h1, h2]

/-- C6, witness: an anchor-shaped line is collected by the anchor scan. -/
theorem c6_witness :
    (0, pyStrip "01-Sep-22 5 XYZ") ∈ dbs_anchors ["01-Sep-22 5 XYZ"] :=
  c6_amended.2.2.1 ["01-Sep-22 5 XYZ"] 0 (by decide) (by decide) (by decide)
